import Mathlib

/-!
Verification of the pearpass-lib-vault-core credential/key-custody core.

Part 1 embeds the persisted brute-force rate limiter
(src/src/worklet/rateLimiter.js) as pure Lean functions: the storage
collaborator's behaviour on a call is passed in explicitly (a read outcome
and a write-success flag), and the ambient clock is an explicit `now`
parameter (the source reads `Date.now()`; within one call the tests pin it
to a single value).

Part 2 embeds the master-password manager.  Its implementation file is not
among the sources (only its unit tests are), so its operations are
modelled from the specification, with the crypto collaborators idealised
symbolically per their documented contracts.
-/

namespace Pearpass

/-! ## Rate limiter (src/src/worklet/rateLimiter.js): definitions -/

def MAX_ATTEMPTS : Nat := 5

def MAX_BACKOFF_MINUTES : Nat := 24 * 60

def COOLDOWN_PERIOD_MS : Int := (MAX_BACKOFF_MINUTES : Int) * 60 * 1000

/-- The persisted rate-limit record (`DEFAULT_DATA` shape in the source).
Timestamps are integers (JS epoch milliseconds); `none` models `null`. -/
structure RateLimitState where
  consecutiveFailures : Nat
  lockoutUntil : Option Int
  lastAttemptTime : Option Int
deriving DecidableEq, Repr

def DEFAULT_DATA : RateLimitState :=
  { consecutiveFailures := 0, lockoutUntil := none, lastAttemptTime := none }

/-- `calculateBackoffDuration` from the source: 0 below `MAX_ATTEMPTS`,
otherwise `min(2^(n - MAX_ATTEMPTS + 1), MAX_BACKOFF_MINUTES)` minutes in
milliseconds. -/
def calculateBackoffDuration (consecutiveFailures : Nat) : Nat :=
  if consecutiveFailures < MAX_ATTEMPTS then 0
  else
    min (2 ^ (consecutiveFailures - MAX_ATTEMPTS + 1)) MAX_BACKOFF_MINUTES * 60 * 1000

/-- Outcome of `this.storage.get(STORAGE_KEY)`: a successful read of an
existing record, a successful read finding nothing, or a thrown error. -/
inductive ReadResult where
  | ok (v : Option RateLimitState)
  | err
deriving DecidableEq, Repr

/-- `getData` past the storage-bound check: a successful empty read yields
the default record; a failing read is caught and replaced by the
synthesized penalty state. -/
def getData (now : Int) (r : ReadResult) : RateLimitState :=
  match r with
  | .ok (some d) => d
  | .ok none => DEFAULT_DATA
  | .err =>
    { consecutiveFailures := 1
      lockoutUntil := some (now + (calculateBackoffDuration 1 : Int))
      lastAttemptTime := some now }

/-- `getData` including the leading storage-bound check, which is the only
place `getData` itself can throw. -/
def getDataE (storageBound : Bool) (now : Int) (r : ReadResult) :
    Except String RateLimitState :=
  if storageBound then .ok (getData now r) else .error "Storage not initialized."

/-- `isLockoutExpired`: `null` counts as expired; otherwise expired when
`now >= lockoutUntil`. -/
def isLockoutExpired (now : Int) (lockoutUntil : Option Int) : Bool :=
  match lockoutUntil with
  | none => true
  | some t => decide (t ≤ now)

/-- `shouldGrantFreshStart`: a `null lastAttemptTime` never grants it;
otherwise granted when `now - lastAttemptTime >= COOLDOWN_PERIOD_MS`. -/
def shouldGrantFreshStart (now : Int) (lastAttemptTime : Option Int) : Bool :=
  match lastAttemptTime with
  | none => false
  | some t => decide (COOLDOWN_PERIOD_MS ≤ now - t)

structure RateStatus where
  isLocked : Bool
  lockoutRemainingMs : Int
  remainingAttempts : Nat
deriving DecidableEq, Repr

/-- `getStatus`.  `resetWriteOk` is the outcome of the `reset()` write
performed on the fresh-start branch; the result pairs the reported status
with the record written back (if any).  The `lockoutRemainingMs` ternary
follows JS truthiness: a numerically zero `lockoutUntil` is falsy. -/
def getStatus (now : Int) (r : ReadResult) (resetWriteOk : Bool) :
    Except String (RateStatus × Option RateLimitState) :=
  let data := getData now r
  if shouldGrantFreshStart now data.lastAttemptTime then
    if resetWriteOk then
      .ok ({ isLocked := false, lockoutRemainingMs := 0,
             remainingAttempts := MAX_ATTEMPTS }, some DEFAULT_DATA)
    else .error "storage add failed"
  else if data.lockoutUntil.isSome && isLockoutExpired now data.lockoutUntil then
    .ok ({ isLocked := false, lockoutRemainingMs := 0, remainingAttempts := 0 }, none)
  else
    let isLocked := data.lockoutUntil.isSome
    let lockoutRemainingMs : Int :=
      match data.lockoutUntil with
      | some t => if t = 0 then 0 else max 0 (t - now)
      | none => 0
    let remainingAttempts :=
      if isLocked then 0 else MAX_ATTEMPTS - data.consecutiveFailures
    .ok ({ isLocked := isLocked, lockoutRemainingMs := lockoutRemainingMs,
           remainingAttempts := remainingAttempts }, none)

/-- `getRemainingAttempts`: same cooldown check, then an *active*-lockout
check, then the clamped `MAX_ATTEMPTS - consecutiveFailures`. -/
def getRemainingAttempts (now : Int) (r : ReadResult) : Nat :=
  let data := getData now r
  if shouldGrantFreshStart now data.lastAttemptTime then MAX_ATTEMPTS
  else if data.lockoutUntil.isSome && !(isLockoutExpired now data.lockoutUntil) then 0
  else MAX_ATTEMPTS - data.consecutiveFailures

/-- `recordFailure`: the only denial for a throwing `getData` is the
storage-unbound case; then the cooldown reset, expired-lockout clearing,
increment, lockout recomputation, and the final write which on failure
becomes the write-fault denial.  On success the persisted record is
returned. -/
def recordFailure (storageBound : Bool) (now : Int) (r : ReadResult)
    (writeOk : Bool) : Except String RateLimitState :=
  match getDataE storageBound now r with
  | .error _ => .error "Rate limiter unavailable - denying attempt"
  | .ok d0 =>
    let d1 :=
      if shouldGrantFreshStart now d0.lastAttemptTime then
        { d0 with consecutiveFailures := 0, lockoutUntil := none }
      else d0
    let d2 :=
      if d1.lockoutUntil.isSome && isLockoutExpired now d1.lockoutUntil then
        { d1 with lockoutUntil := none }
      else d1
    let cf := d2.consecutiveFailures + 1
    let backoffMs := calculateBackoffDuration cf
    let d3 : RateLimitState :=
      { consecutiveFailures := cf
        lockoutUntil := if backoffMs > 0 then some (now + (backoffMs : Int)) else none
        lastAttemptTime := some now }
    if writeOk then .ok d3 else .error "Failed to record attempt - denying access"

/-- `reset` persists the default record unconditionally. -/
def resetWrites : RateLimitState := DEFAULT_DATA

/-- Spec-side restatement of the claimed `recordFailure` pipeline, written
from the claim's wording: (1) cooldown reset, (2) clear a non-null expired
lockout keeping the counter, (3) increment and stamp `lastAttemptTime`,
(4) lockout from the backoff of the new counter when positive, else null. -/
def recordFailureClaim (now : Int) (d : RateLimitState) : RateLimitState :=
  let afterCooldown :=
    if shouldGrantFreshStart now d.lastAttemptTime then
      { d with consecutiveFailures := 0, lockoutUntil := none }
    else d
  let afterExpiry :=
    match afterCooldown.lockoutUntil with
    | some t =>
      if t ≤ now then { afterCooldown with lockoutUntil := none } else afterCooldown
    | none => afterCooldown
  let cf := afterExpiry.consecutiveFailures + 1
  { consecutiveFailures := cf
    lockoutUntil :=
      if 0 < calculateBackoffDuration cf then
        some (now + (calculateBackoffDuration cf : Int))
      else none
    lastAttemptTime := some now }

/-- A JS argument handed to `setStorage`: a nullish (falsy) value, or an
object — truthy whether or not it actually carries `get`/`add` methods. -/
inductive JSArg where
  | jsNull
  | jsUndefined
  | obj (hasGet : Bool) (hasAdd : Bool)
deriving DecidableEq, Repr

def jsTruthy : JSArg → Bool
  | .jsNull => false
  | .jsUndefined => false
  | .obj _ _ => true

/-- `setStorage` from the source: rejects a falsy argument with the
get-and-add error message and binds any truthy argument unchecked. -/
def setStorage (storage : JSArg) : Except String JSArg :=
  if jsTruthy storage then .ok storage
  else .error "Storage must have get and add methods"

/-! ## Master-password manager: definitions

The manager's implementation file is not among the sources — only its unit
tests (src/src/worklet/masterPasswordManager.test.js and an earlier
variant) — so everything below is modelled from the specification, with
the crypto collaborators of §6 idealised symbolically. -/

/-- Password-derived verification material: `getDecryptionKey` is
deterministic per salt and password, so a hash is idealised as the
(salt, password) pair that determines it. -/
structure Hashed where
  salt : Nat
  pw : String
deriving DecidableEq, Repr

/-- A wrapped vault key: the AEAD ciphertext determines the enclosed key
and the hash it was wrapped under. -/
structure Cipher where
  key : Nat
  wrap : Hashed
deriving DecidableEq, Repr

/-- Vault-store projection `masterEncryption`: encrypted vault key plus
the verification hash. -/
structure VaultRecord where
  ciphertext : Cipher
  nonce : Nat
  salt : Nat
  hashedPassword : Hashed
deriving DecidableEq, Repr

/-- Encryption-store projection `masterPassword`: the same triple without
the verification hash (the type has no hash field). -/
structure EncRecord where
  ciphertext : Cipher
  nonce : Nat
  salt : Nat
deriving DecidableEq, Repr

/-- Modelled from the spec: the KDF collaborator `getDecryptionKey({salt,
password})`, deterministic given salt and password. -/
def getDecryptionKey (salt : Nat) (password : String) : Hashed :=
  { salt := salt, pw := password }

/-- Modelled from the spec: the constant-time comparator's functional
contract — equality of the two hashes. -/
def constantTimeHashCompare (a b : Hashed) : Bool := a == b

/-- Modelled from the spec: the AEAD collaborator `decryptVaultKey`,
returning the wrapped key iff the supplied hash matches the wrapping hash,
`undefined` (here `none`) otherwise, never throwing. -/
def decryptVaultKey (c : Cipher) (h : Hashed) : Option Nat :=
  if c.wrap = h then some c.key else none

/-- The verification material returned by create/rotate. -/
structure CreateResult where
  hashedPassword : Hashed
  salt : Nat
  ciphertext : Cipher
  nonce : Nat
deriving DecidableEq, Repr

/-- Modelled from the spec: the manager-visible state — the vault-store
`masterEncryption` projection, the encryption-store `masterPassword`
projection, whether the vault store is open, the transiently held vault
key, a counter of `recordFailure` calls made on the rate limiter, and a
freshness counter supplying the random salts, keys and nonces. -/
structure MgrState where
  vaultStore : Option VaultRecord
  encStore : Option EncRecord
  vaultsOpen : Bool
  vaultKey : Option Nat
  failureCount : Nat
  fresh : Nat
deriving DecidableEq, Repr

def initState : MgrState :=
  { vaultStore := none, encStore := none, vaultsOpen := false,
    vaultKey := none, failureCount := 0, fresh := 0 }

/-- Modelled from the spec: `createMasterPassword` (implementation absent
from the sources; behaviour per §4.2 and the unit tests): hash the
password with a fresh salt, wrap a fresh vault key under the hash, decrypt
it locally, open the vault store with it, and persist both projections
with the same `(ciphertext, nonce, salt)` triple. -/
def createMasterPassword (passwordBase64 : String) (s : MgrState) :
    Except String CreateResult × MgrState :=
  let salt := s.fresh
  let h : Hashed := { salt := salt, pw := passwordBase64 }
  let key := s.fresh + 1
  let nonce := s.fresh + 2
  let ct : Cipher := { key := key, wrap := h }
  match decryptVaultKey ct h with
  | none => (.error "Error decrypting vault key", s)
  | some k =>
    (.ok { hashedPassword := h, salt := salt, ciphertext := ct, nonce := nonce },
     { s with
        vaultStore := some { ciphertext := ct, nonce := nonce, salt := salt,
                             hashedPassword := h }
        encStore := some { ciphertext := ct, nonce := nonce, salt := salt }
        vaultsOpen := true
        vaultKey := some k
        fresh := s.fresh + 3 })

/-- Modelled from the spec: `initWithPassword` (implementation absent from
the sources).  With the vault already open it constant-time-compares the
derived hash against the stored one, recording a rate-limiter failure on
mismatch (§7: password-entry paths always trigger `recordFailure` exactly
once); with the vault not open it derives the hash from the
encryption-store projection and attempts decryption, recording a failure
when decryption yields nothing. -/
def initWithPassword (passwordBase64 : String) (s : MgrState) :
    Except String Unit × MgrState :=
  if s.vaultsOpen then
    match s.vaultStore with
    | none => (.error "No master encryption found", s)
    | some r =>
      let derived := getDecryptionKey r.salt passwordBase64
      if constantTimeHashCompare r.hashedPassword derived then (.ok (), s)
      else
        (.error "Provided credentials do not match existing master encryption",
         { s with failureCount := s.failureCount + 1 })
  else
    match s.encStore with
    | none => (.error "No master password found", s)
    | some e =>
      let derived := getDecryptionKey e.salt passwordBase64
      match decryptVaultKey e.ciphertext derived with
      | none =>
        (.error "Error decrypting vault key",
         { s with failureCount := s.failureCount + 1 })
      | some k => (.ok (), { s with vaultsOpen := true, vaultKey := some k })

/-- Modelled from the spec: `updateMasterPassword` (implementation absent
from the sources): verify `currentPassword` by constant-time comparison
(mismatch records a rate-limiter failure per §7 and fails with the stable
message), recover the vault key, rehash the new password with a fresh
salt, re-wrap the *same* key, and persist both projections with the new
identical triple. -/
def updateMasterPassword (currentPassword newPassword : String) (s : MgrState) :
    Except String CreateResult × MgrState :=
  match s.vaultStore with
  | none => (.error "No master encryption found", s)
  | some r =>
    let derived := getDecryptionKey r.salt currentPassword
    if constantTimeHashCompare r.hashedPassword derived then
      match decryptVaultKey r.ciphertext r.hashedPassword with
      | none => (.error "Error decrypting vault key", s)
      | some key =>
        let newSalt := s.fresh
        let newHash : Hashed := { salt := newSalt, pw := newPassword }
        let newNonce := s.fresh + 1
        let newCt : Cipher := { key := key, wrap := newHash }
        (.ok { hashedPassword := newHash, salt := newSalt, ciphertext := newCt,
               nonce := newNonce },
         { s with
            vaultStore := some { ciphertext := newCt, nonce := newNonce,
                                 salt := newSalt, hashedPassword := newHash }
            encStore := some { ciphertext := newCt, nonce := newNonce, salt := newSalt }
            fresh := s.fresh + 2 })
    else
      (.error "Invalid password", { s with failureCount := s.failureCount + 1 })

/-- Modelled from the spec: `initWithCredentials` (implementation absent
from the sources): all three fields must be present (checked before any
cryptographic work), then decryption is attempted with the supplied hash;
the rate limiter is never touched on this path. -/
def initWithCredentials (ciphertext : Option Cipher) (nonce : Option Nat)
    (hashedPassword : Option Hashed) (s : MgrState) :
    Except String Unit × MgrState :=
  match ciphertext, nonce, hashedPassword with
  | some ct, some _, some h =>
    match decryptVaultKey ct h with
    | none => (.error "Error decrypting vault key", s)
    | some k => (.ok (), { s with vaultsOpen := true, vaultKey := some k })
  | _, _, _ => (.error "Missing required parameters", s)

/-- States reachable from the pristine manager state by any sequence of
the four entry operations. -/
inductive Reachable : MgrState → Prop where
  | base : Reachable initState
  | create (p : String) {s : MgrState} :
      Reachable s → Reachable (createMasterPassword p s).2
  | update (c n : String) {s : MgrState} :
      Reachable s → Reachable (updateMasterPassword c n s).2
  | initPw (p : String) {s : MgrState} :
      Reachable s → Reachable (initWithPassword p s).2
  | initCred (ct : Option Cipher) (nn : Option Nat) (h : Option Hashed) {s : MgrState} :
      Reachable s → Reachable (initWithCredentials ct nn h s).2

/-- The dual-projection invariant: the two stores are populated together,
and when populated the encryption-store record is exactly the vault-store
record's `(ciphertext, nonce, salt)` triple — nothing more, so in
particular no verification hash (the `EncRecord` type has no hash
field). -/
def StoresInSync (s : MgrState) : Prop :=
  match s.vaultStore, s.encStore with
  | none, none => True
  | some r, some e =>
    e = { ciphertext := r.ciphertext, nonce := r.nonce, salt := r.salt }
  | _, _ => False

/-! ## Theorems -/

/-- Helper: the dual-projection invariant only looks at the two stores. -/
theorem storesInSync_ext (s s' : MgrState) (hv : s'.vaultStore = s.vaultStore)
    (he : s'.encStore = s.encStore) (h : StoresInSync s) : StoresInSync s' := by
  unfold StoresInSync at *
  rw [hv, he]
  exact h

/-- Helper: `initWithPassword` never writes either store. -/
theorem initWithPassword_stores (p : String) (s : MgrState) :
    ((initWithPassword p s).2).vaultStore = s.vaultStore ∧
    ((initWithPassword p s).2).encStore = s.encStore := by
  unfold initWithPassword
  by_cases ho : s.vaultsOpen = true
  · rw [if_pos ho]
    rcases hv : s.vaultStore with _ | r
    · simp [hv]
    · by_cases hc :
          constantTimeHashCompare r.hashedPassword (getDecryptionKey r.salt p) = true
      · simp [hc, hv]
      · simp [hc, hv]
  · rw [if_neg ho]
    rcases he : s.encStore with _ | e
    · simp [he]
    · rcases hdk : decryptVaultKey e.ciphertext (getDecryptionKey e.salt p) with _ | k
      · simp [hdk, he]
      · simp [hdk, he]

/-- Helper: `initWithCredentials` never writes either store. -/
theorem initWithCredentials_stores (ct : Option Cipher) (nn : Option Nat)
    (h : Option Hashed) (s : MgrState) :
    ((initWithCredentials ct nn h s).2).vaultStore = s.vaultStore ∧
    ((initWithCredentials ct nn h s).2).encStore = s.encStore := by
  unfold initWithCredentials
  split
  · split <;> simp
  · simp

/-- C1: for every stored state successfully read and successfully
persisted, `recordFailure` writes back exactly the state described by the
four-step pipeline of the claim (cooldown reset; clearing of a non-null
expired lockout with the counter preserved; increment and
`lastAttemptTime = now`; lockout recomputed from the backoff of the new
counter, null when the backoff is zero). -/
theorem recordFailure_matches_claim (now : Int) (d : RateLimitState) :
    recordFailure true now (.ok (some d)) true = .ok (recordFailureClaim now d) := by
  unfold recordFailure recordFailureClaim getDataE getData
  cases h1 : shouldGrantFreshStart now d.lastAttemptTime <;>
    cases h2 : d.lockoutUntil <;>
      simp [h1, h2, isLockoutExpired]

/-- C2: `calculateBackoffDuration n` is 0 for `n < 5` and
`min(2^(n-4) minutes, 24 hours)` in milliseconds for `n ≥ 5`. -/
theorem calculateBackoffDuration_spec (n : Nat) :
    (n < 5 → calculateBackoffDuration n = 0) ∧
    (5 ≤ n →
      calculateBackoffDuration n = min (2 ^ (n - 4) * 60 * 1000) (24 * 60 * 60 * 1000)) := by
  constructor
  · intro h
    simp [calculateBackoffDuration, MAX_ATTEMPTS, h]
  · intro h
    have hlt : ¬ n < MAX_ATTEMPTS := by unfold MAX_ATTEMPTS; omega
    have hexp : n - MAX_ATTEMPTS + 1 = n - 4 := by unfold MAX_ATTEMPTS; omega
    unfold calculateBackoffDuration
    rw [if_neg hlt, hexp, Nat.mul_assoc, ← min_mul_mul_right]
    simp [MAX_BACKOFF_MINUTES, Nat.mul_assoc]

/-- C2 witness: concrete evaluations at 3 and 7. -/
theorem calculateBackoffDuration_spec_witness :
    calculateBackoffDuration 3 = 0 ∧
    calculateBackoffDuration 7 = min (2 ^ (7 - 4) * 60 * 1000) (24 * 60 * 60 * 1000) :=
  ⟨(calculateBackoffDuration_spec 3).1 (by decide),
   (calculateBackoffDuration_spec 7).2 (by decide)⟩

/-- C3: 24h of inactivity since a non-null `lastAttemptTime` makes
`getStatus` report fully unlocked with 5 attempts while persisting the
default record, makes `getRemainingAttempts` return 5, and makes the next
successful `recordFailure` persist `{1, null, now}` — even mid-lockout;
and a null `lastAttemptTime` never grants the fresh start. -/
theorem freshStart_behavior (now t : Int) (d : RateLimitState)
    (h1 : d.lastAttemptTime = some t) (h2 : COOLDOWN_PERIOD_MS ≤ now - t) :
    getStatus now (.ok (some d)) true =
      .ok ({ isLocked := false, lockoutRemainingMs := 0,
             remainingAttempts := MAX_ATTEMPTS }, some DEFAULT_DATA) ∧
    getRemainingAttempts now (.ok (some d)) = MAX_ATTEMPTS ∧
    recordFailure true now (.ok (some d)) true =
      .ok { consecutiveFailures := 1, lockoutUntil := none,
            lastAttemptTime := some now } ∧
    ∀ m : Int, shouldGrantFreshStart m none = false := by
  have hfs : shouldGrantFreshStart now d.lastAttemptTime = true := by
    simp [shouldGrantFreshStart, h1, h2]
  refine ⟨?_, ?_, ?_, fun m => rfl⟩
  · simp [getStatus, getData, hfs]
  · simp [getRemainingAttempts, getData, hfs]
  · simp [recordFailure, getDataE, getData, hfs, calculateBackoffDuration, MAX_ATTEMPTS]

/-- C3 witness: a state with an active lockout whose last attempt is
exactly 24h old. -/
theorem freshStart_behavior_witness :
    getStatus 86400000 (.ok (some ⟨7, some 86500000, some 0⟩)) true =
      .ok ({ isLocked := false, lockoutRemainingMs := 0,
             remainingAttempts := MAX_ATTEMPTS }, some DEFAULT_DATA) ∧
    getRemainingAttempts 86400000 (.ok (some ⟨7, some 86500000, some 0⟩)) = MAX_ATTEMPTS ∧
    recordFailure true 86400000 (.ok (some ⟨7, some 86500000, some 0⟩)) true =
      .ok { consecutiveFailures := 1, lockoutUntil := none,
            lastAttemptTime := some 86400000 } :=
  ⟨(freshStart_behavior 86400000 0 ⟨7, some 86500000, some 0⟩ rfl (by decide)).1,
   (freshStart_behavior 86400000 0 ⟨7, some 86500000, some 0⟩ rfl (by decide)).2.1,
   (freshStart_behavior 86400000 0 ⟨7, some 86500000, some 0⟩ rfl (by decide)).2.2.1⟩

/-- C4 counterexample: on the stored state `{2, some 5, some 999999}` at
`now = 1000000` (no fresh start, expired lockout), `getStatus` reports 0
remaining attempts but `getRemainingAttempts` returns 3, so the two do not
return the same attempts figure for every stored state. -/
theorem status_vs_remaining_mismatch :
    getStatus 1000000 (.ok (some ⟨2, some 5, some 999999⟩)) true =
      .ok ({ isLocked := false, lockoutRemainingMs := 0, remainingAttempts := 0 }, none) ∧
    getRemainingAttempts 1000000 (.ok (some ⟨2, some 5, some 999999⟩)) = 3 := by
  refine ⟨?_, ?_⟩ <;> rfl

/-- C4 amended: without a pending fresh start (and a non-negative clock),
an expired non-null lockout makes `getStatus` report `{false, 0, 0}`
while `getRemainingAttempts` returns the clamped
`5 - consecutiveFailures` — which is 0, agreeing with `getStatus`,
whenever `consecutiveFailures ≥ 5`, as in every state the limiter itself
persists with a non-null lockout; an active lockout yields
`{true, max 0 (lockoutUntil - now), 0}` and 0 attempts from both; a null
lockout yields `{false, 0, max 0 (5 - consecutiveFailures)}` from both. -/
theorem getStatus_no_freshstart (now : Int) (d : RateLimitState)
    (hfs : shouldGrantFreshStart now d.lastAttemptTime = false)
    (hnow : 0 ≤ now) :
    (∀ t, d.lockoutUntil = some t → t ≤ now →
       getStatus now (.ok (some d)) true =
         .ok ({ isLocked := false, lockoutRemainingMs := 0, remainingAttempts := 0 }, none) ∧
       getRemainingAttempts now (.ok (some d)) = MAX_ATTEMPTS - d.consecutiveFailures ∧
       (MAX_ATTEMPTS ≤ d.consecutiveFailures →
         getRemainingAttempts now (.ok (some d)) = 0)) ∧
    (∀ t, d.lockoutUntil = some t → now < t →
       getStatus now (.ok (some d)) true =
         .ok ({ isLocked := true, lockoutRemainingMs := max 0 (t - now),
                remainingAttempts := 0 }, none) ∧
       getRemainingAttempts now (.ok (some d)) = 0) ∧
    (d.lockoutUntil = none →
       getStatus now (.ok (some d)) true =
         .ok ({ isLocked := false, lockoutRemainingMs := 0,
                remainingAttempts := MAX_ATTEMPTS - d.consecutiveFailures }, none) ∧
       getRemainingAttempts now (.ok (some d)) = MAX_ATTEMPTS - d.consecutiveFailures) := by
  refine ⟨?_, ?_, ?_⟩
  · intro t ht hexp
    refine ⟨?_, ?_, ?_⟩
    · simp [getStatus, getData, hfs, ht, isLockoutExpired, hexp]
    · simp [getRemainingAttempts, getData, hfs, ht, isLockoutExpired, hexp]
    · intro h5
      simp [getRemainingAttempts, getData, hfs, ht, isLockoutExpired, hexp]
      omega
  · intro t ht hact
    have htz : t ≠ 0 := by omega
    refine ⟨?_, ?_⟩
    · simp [getStatus, getData, hfs, ht, isLockoutExpired, not_le.mpr hact, htz]
    · simp [getRemainingAttempts, getData, hfs, ht, isLockoutExpired, not_le.mpr hact]
  · intro ht
    refine ⟨?_, ?_⟩
    · simp [getStatus, getData, hfs, ht]
    · simp [getRemainingAttempts, getData, hfs, ht]

/-- C4 amended witness: the three lockout shapes at concrete states. -/
theorem getStatus_no_freshstart_witness :
    (getStatus 1000 (.ok (some ⟨6, some 500, some 900⟩)) true =
       .ok ({ isLocked := false, lockoutRemainingMs := 0, remainingAttempts := 0 }, none) ∧
     getRemainingAttempts 1000 (.ok (some ⟨6, some 500, some 900⟩)) =
       MAX_ATTEMPTS - 6 ∧
     (MAX_ATTEMPTS ≤ 6 →
       getRemainingAttempts 1000 (.ok (some ⟨6, some 500, some 900⟩)) = 0)) ∧
    (getStatus 1000 (.ok (some ⟨5, some 2000, some 900⟩)) true =
       .ok ({ isLocked := true, lockoutRemainingMs := max 0 (2000 - 1000),
              remainingAttempts := 0 }, none) ∧
     getRemainingAttempts 1000 (.ok (some ⟨5, some 2000, some 900⟩)) = 0) ∧
    (getStatus 1000 (.ok (some ⟨2, none, some 900⟩)) true =
       .ok ({ isLocked := false, lockoutRemainingMs := 0,
              remainingAttempts := MAX_ATTEMPTS - 2 }, none) ∧
     getRemainingAttempts 1000 (.ok (some ⟨2, none, some 900⟩)) =
       MAX_ATTEMPTS - 2) :=
  ⟨(getStatus_no_freshstart 1000 ⟨6, some 500, some 900⟩ (by decide) (by decide)).1
      500 rfl (by decide),
   (getStatus_no_freshstart 1000 ⟨5, some 2000, some 900⟩ (by decide) (by decide)).2.1
      2000 rfl (by decide),
   (getStatus_no_freshstart 1000 ⟨2, none, some 900⟩ (by decide) (by decide)).2.2
      rfl⟩

/-- C5 counterexample: a failing storage read with a succeeding write does
not deny — `recordFailure` returns normally, persisting the synthesized
penalty state incremented once. -/
theorem recordFailure_read_fault_succeeds :
    recordFailure true 1000000 .err true =
      .ok { consecutiveFailures := 2, lockoutUntil := none,
            lastAttemptTime := some 1000000 } := by
  rfl

/-- C5 amended: `recordFailure` denies with the write-fault message on
every failing write (whatever the read did), denies with the
rate-limiter-unavailable message exactly when `getData` itself throws —
which happens only when no storage is bound — and completes normally on a
storage read fault when the subsequent write succeeds, the read fault
having been absorbed by `getData`'s synthesized penalty state. -/
theorem recordFailure_fault_policy (now : Int) (r : ReadResult) (w : Bool) :
    recordFailure true now r false = .error "Failed to record attempt - denying access" ∧
    recordFailure false now r w = .error "Rate limiter unavailable - denying attempt" ∧
    recordFailure true now .err true =
      .ok { consecutiveFailures := 2, lockoutUntil := none,
            lastAttemptTime := some now } := by
  refine ⟨?_, ?_, ?_⟩
  · simp [recordFailure, getDataE]
  · simp [recordFailure, getDataE]
  · simp [recordFailure, getDataE, getData, shouldGrantFreshStart, isLockoutExpired,
      calculateBackoffDuration, MAX_ATTEMPTS, COOLDOWN_PERIOD_MS, MAX_BACKOFF_MINUTES]

/-- C6: a failing storage read makes `getData` return the synthesized
state `{1, now + calculateBackoffDuration(1), now}`, which is `{1, now,
now}` (immediately expired); `getStatus` on a failing read therefore
reports `{false, 0, 0}` (whatever the reset write would do); and a
successful read finding no record yields the default state. -/
theorem getData_fault_policy (now : Int) (resetOk : Bool) :
    getData now .err =
      { consecutiveFailures := 1,
        lockoutUntil := some (now + (calculateBackoffDuration 1 : Int)),
        lastAttemptTime := some now } ∧
    getData now .err =
      { consecutiveFailures := 1, lockoutUntil := some now, lastAttemptTime := some now } ∧
    getStatus now .err resetOk =
      .ok ({ isLocked := false, lockoutRemainingMs := 0, remainingAttempts := 0 }, none) ∧
    getData now (.ok none) = DEFAULT_DATA := by
  refine ⟨rfl, ?_, ?_, rfl⟩
  · simp [getData, calculateBackoffDuration, MAX_ATTEMPTS]
  · simp [getStatus, getData, shouldGrantFreshStart, isLockoutExpired,
      calculateBackoffDuration, MAX_ATTEMPTS, COOLDOWN_PERIOD_MS, MAX_BACKOFF_MINUTES]

/-- C7 (spec-modelled): each authentication failure on a password-entry
path — `initWithPassword` with a non-matching password on the
vault-open comparison path and on the vault-not-open decryption path, and
`updateMasterPassword` with a wrong current password — fails with its
stable message and bumps the rate-limiter failure counter by exactly one,
while `initWithCredentials` never changes the counter, on success or
failure. -/
theorem mpm_auth_failures :
    (∀ (s : MgrState) (r : VaultRecord) (p p' : String),
       s.vaultsOpen = true → s.vaultStore = some r →
       r.hashedPassword = { salt := r.salt, pw := p } → p' ≠ p →
       initWithPassword p' s =
         (.error "Provided credentials do not match existing master encryption",
          { s with failureCount := s.failureCount + 1 })) ∧
    (∀ (s : MgrState) (e : EncRecord) (p p' : String),
       s.vaultsOpen = false → s.encStore = some e →
       e.ciphertext.wrap = { salt := e.salt, pw := p } → p' ≠ p →
       initWithPassword p' s =
         (.error "Error decrypting vault key",
          { s with failureCount := s.failureCount + 1 })) ∧
    (∀ (s : MgrState) (r : VaultRecord) (c c' n : String),
       s.vaultStore = some r →
       r.hashedPassword = { salt := r.salt, pw := c } → c' ≠ c →
       updateMasterPassword c' n s =
         (.error "Invalid password",
          { s with failureCount := s.failureCount + 1 })) ∧
    (∀ (s : MgrState) (ct : Option Cipher) (nn : Option Nat) (h : Option Hashed),
       ((initWithCredentials ct nn h s).2).failureCount = s.failureCount) := by
  refine ⟨?_, ?_, ?_, ?_⟩
  · intro s r p p' hopen hstore hhash hne
    simp [initWithPassword, hopen, hstore, getDecryptionKey, constantTimeHashCompare,
      hhash, Hashed.mk.injEq, Ne.symm hne]
  · intro s e p p' hopen hstore hwrap hne
    simp [initWithPassword, hopen, hstore, getDecryptionKey, decryptVaultKey,
      hwrap, Hashed.mk.injEq, Ne.symm hne]
  · intro s r c c' n hstore hhash hne
    simp [updateMasterPassword, hstore, getDecryptionKey, constantTimeHashCompare,
      hhash, Hashed.mk.injEq, Ne.symm hne]
  · intro s ct nn h
    unfold initWithCredentials
    split
    · split <;> simp
    · simp

/-- C7 witness: concrete states for the four parts. -/
theorem mpm_auth_failures_witness :
    (initWithPassword "b"
       { vaultStore := some { ciphertext := { key := 1, wrap := { salt := 0, pw := "a" } },
                              nonce := 2, salt := 0,
                              hashedPassword := { salt := 0, pw := "a" } },
         encStore := none, vaultsOpen := true, vaultKey := none,
         failureCount := 0, fresh := 3 } =
       (.error "Provided credentials do not match existing master encryption",
        { vaultStore := some { ciphertext := { key := 1, wrap := { salt := 0, pw := "a" } },
                               nonce := 2, salt := 0,
                               hashedPassword := { salt := 0, pw := "a" } },
          encStore := none, vaultsOpen := true, vaultKey := none,
          failureCount := 1, fresh := 3 })) ∧
    (initWithPassword "b"
       { vaultStore := none,
         encStore := some { ciphertext := { key := 1, wrap := { salt := 0, pw := "a" } },
                            nonce := 2, salt := 0 },
         vaultsOpen := false, vaultKey := none, failureCount := 0, fresh := 3 } =
       (.error "Error decrypting vault key",
        { vaultStore := none,
          encStore := some { ciphertext := { key := 1, wrap := { salt := 0, pw := "a" } },
                             nonce := 2, salt := 0 },
          vaultsOpen := false, vaultKey := none, failureCount := 1, fresh := 3 })) ∧
    (updateMasterPassword "b" "c"
       { vaultStore := some { ciphertext := { key := 1, wrap := { salt := 0, pw := "a" } },
                              nonce := 2, salt := 0,
                              hashedPassword := { salt := 0, pw := "a" } },
         encStore := none, vaultsOpen := true, vaultKey := none,
         failureCount := 0, fresh := 3 } =
       (.error "Invalid password",
        { vaultStore := some { ciphertext := { key := 1, wrap := { salt := 0, pw := "a" } },
                               nonce := 2, salt := 0,
                               hashedPassword := { salt := 0, pw := "a" } },
          encStore := none, vaultsOpen := true, vaultKey := none,
          failureCount := 1, fresh := 3 })) ∧
    ((initWithCredentials none none none initState).2).failureCount =
      initState.failureCount :=
  ⟨mpm_auth_failures.1 _ _ "a" "b" rfl rfl rfl (by decide),
   mpm_auth_failures.2.1 _ _ "a" "b" rfl rfl rfl (by decide),
   mpm_auth_failures.2.2.1 _ _ "a" "b" "c" rfl rfl (by decide),
   mpm_auth_failures.2.2.2 initState none none none⟩

/-- C8 (spec-modelled): `createMasterPassword p` then `initWithPassword p`
succeeds; `initWithPassword p'` for `p' ≠ p` fails and bumps the failure
counter by exactly one; `updateMasterPassword` with the correct current
password returns fresh salt, hash, ciphertext and nonce while the wrapped
vault key is unchanged, and `initWithPassword` with the new password
succeeds immediately afterwards. -/
theorem mpm_roundtrip :
    (∀ (s : MgrState) (p : String),
       (initWithPassword p (createMasterPassword p s).2).1 = .ok ()) ∧
    (∀ (s : MgrState) (p p' : String), p' ≠ p →
       (initWithPassword p' (createMasterPassword p s).2).1 =
         .error "Provided credentials do not match existing master encryption" ∧
       ((initWithPassword p' (createMasterPassword p s).2).2).failureCount =
         ((createMasterPassword p s).2).failureCount + 1) ∧
    (∀ (s : MgrState) (p q : String),
       ∃ cr ur : CreateResult,
         (createMasterPassword p s).1 = .ok cr ∧
         (updateMasterPassword p q (createMasterPassword p s).2).1 = .ok ur ∧
         ur.salt ≠ cr.salt ∧ ur.hashedPassword ≠ cr.hashedPassword ∧
         ur.ciphertext ≠ cr.ciphertext ∧ ur.nonce ≠ cr.nonce ∧
         ur.ciphertext.key = cr.ciphertext.key ∧
         (initWithPassword q
            (updateMasterPassword p q (createMasterPassword p s).2).2).1 = .ok ()) := by
  refine ⟨?_, ?_, ?_⟩
  · intro s p
    simp [createMasterPassword, initWithPassword, decryptVaultKey,
      getDecryptionKey, constantTimeHashCompare]
  · intro s p p' hne
    constructor <;>
      simp [createMasterPassword, initWithPassword, decryptVaultKey,
        getDecryptionKey, constantTimeHashCompare, Hashed.mk.injEq, Ne.symm hne]
  · intro s p q
    refine ⟨{ hashedPassword := { salt := s.fresh, pw := p }, salt := s.fresh,
              ciphertext := { key := s.fresh + 1, wrap := { salt := s.fresh, pw := p } },
              nonce := s.fresh + 2 },
            { hashedPassword := { salt := s.fresh + 3, pw := q }, salt := s.fresh + 3,
              ciphertext := { key := s.fresh + 1,
                              wrap := { salt := s.fresh + 3, pw := q } },
              nonce := s.fresh + 4 },
            ?_, ?_, ?_, ?_, ?_, ?_, ?_, ?_⟩
    · simp [createMasterPassword, decryptVaultKey]
    · simp [createMasterPassword, updateMasterPassword, decryptVaultKey,
        getDecryptionKey, constantTimeHashCompare]
    · show s.fresh + 3 ≠ s.fresh
      omega
    · intro h
      have h' : s.fresh + 3 = s.fresh := congrArg Hashed.salt h
      omega
    · intro h
      have h' : s.fresh + 3 = s.fresh := congrArg (fun c => c.wrap.salt) h
      omega
    · show s.fresh + 4 ≠ s.fresh + 2
      omega
    · rfl
    · simp [createMasterPassword, updateMasterPassword, initWithPassword,
        decryptVaultKey, getDecryptionKey, constantTimeHashCompare]

/-- C8 witness: the round trip at concrete passwords from the pristine
state. -/
theorem mpm_roundtrip_witness :
    (initWithPassword "a" (createMasterPassword "a" initState).2).1 = .ok () ∧
    ((initWithPassword "b" (createMasterPassword "a" initState).2).1 =
       .error "Provided credentials do not match existing master encryption" ∧
     ((initWithPassword "b" (createMasterPassword "a" initState).2).2).failureCount =
       ((createMasterPassword "a" initState).2).failureCount + 1) ∧
    (∃ cr ur : CreateResult,
       (createMasterPassword "a" initState).1 = .ok cr ∧
       (updateMasterPassword "a" "c" (createMasterPassword "a" initState).2).1 = .ok ur ∧
       ur.salt ≠ cr.salt ∧ ur.hashedPassword ≠ cr.hashedPassword ∧
       ur.ciphertext ≠ cr.ciphertext ∧ ur.nonce ≠ cr.nonce ∧
       ur.ciphertext.key = cr.ciphertext.key ∧
       (initWithPassword "c"
          (updateMasterPassword "a" "c" (createMasterPassword "a" initState).2).2).1 =
         .ok ()) :=
  ⟨mpm_roundtrip.1 initState "a",
   mpm_roundtrip.2.1 initState "a" "b" (by decide),
   mpm_roundtrip.2.2 initState "a" "c"⟩

/-- C9 (spec-modelled): in every reachable manager state the two persisted
projections are populated together and encode the identical
`(ciphertext, nonce, salt)` triple, the encryption-store record being
exactly that triple — it carries no verification hash. -/
theorem mpm_stores_in_sync (s : MgrState) (h : Reachable s) : StoresInSync s := by
  induction h with
  | base => simp [StoresInSync, initState]
  | create p hr ih =>
    simp [createMasterPassword, decryptVaultKey, StoresInSync]
  | update c n hr ih =>
    rename_i s'
    unfold updateMasterPassword
    rcases hv : s'.vaultStore with _ | r
    · simpa using ih
    · dsimp only
      by_cases hc :
          constantTimeHashCompare r.hashedPassword (getDecryptionKey r.salt c) = true
      · rw [if_pos hc]
        rcases hdk : decryptVaultKey r.ciphertext r.hashedPassword with _ | k
        · simpa using ih
        · simp [StoresInSync]
      · rw [if_neg hc]
        exact storesInSync_ext s' _ hv.symm rfl ih
  | initPw p hr ih =>
    rename_i s'
    exact storesInSync_ext s' _ (initWithPassword_stores p s').1
      (initWithPassword_stores p s').2 ih
  | initCred ct nn hh hr ih =>
    rename_i s'
    exact storesInSync_ext s' _ (initWithCredentials_stores ct nn hh s').1
      (initWithCredentials_stores ct nn hh s').2 ih

/-- C9 witness: the invariant at the state reached by one create. -/
theorem mpm_stores_in_sync_witness :
    StoresInSync (createMasterPassword "a" initState).2 :=
  mpm_stores_in_sync _ (Reachable.create "a" Reachable.base)

/-- C10: `setStorage` rejects exactly the falsy arguments, with the
get-and-add error message, and binds any truthy argument — including an
object carrying neither a `get` nor an `add` method — with no
interface-shape validation. -/
theorem setStorage_truthy_only (a : JSArg) :
    (setStorage a = .ok a ↔ jsTruthy a = true) ∧
    (setStorage a = .error "Storage must have get and add methods" ↔
      jsTruthy a = false) ∧
    setStorage (JSArg.obj false false) = .ok (JSArg.obj false false) := by
  cases a <;> simp [setStorage, jsTruthy]

end Pearpass
